import Mathlib

/-!
Shallow embedding of the marketsignal-native mobile client.

The repository is a React-Native/Expo client over a Supabase backend.  The
definitions below translate its client-side logic into Lean:

* `Cache.*` embeds the key/value cache of src/lib/cache.ts.  The AsyncStorage
  backing store is a key-to-raw-string map; every primitive storage call may
  throw, which the source catches, so each operation takes a `fault` flag
  saying whether the underlying call failed on this invocation.  JSON.stringify
  and JSON.parse are platform builtins, modelled by an abstract `JsonCodec`
  for the stored value type (parse returns `none` when JSON.parse throws).
* `fetchAlerts`, `toggleAlertStatus`, `deleteAlertConfirmed`,
  `setupRealtimeSubscription` embed the alerts screen (the AlertsScreen
  component stored alongside src/lib/cache.ts).  Component state and the cached
  list under the key alerts are gathered in `ScreenState`; backend requests are
  oracles of type `QueryResult`; calls to the native alert dialog are collected
  in a `Dialog` list.  The screen-level model reads and writes the alerts cache
  entry as a typed list (fault-free storage path of `Cache`).
* `adminEffect`, `adminRender`, `auditTrailQuery` embed the admin audit-trail
  screen (src/unnamed/part_002); `runAuditQuery` models the external backend
  executing the constructed query (order by triggered_at descending, limit).
* `FormState`, `formStep`, `validateForm`, `handleSubmit` embed the
  create-alert modal (src/components/alerts/CreateAlertModal.tsx).  The JS
  builtin parseFloat is an oracle `Option Rat` (none models NaN); the JS string
  builtins toUpperCase, trim and first-occurrence replace are given executable
  ASCII-faithful models `jsToUpperCase`, `jsTrim`, `jsReplaceFirst`.
-/

namespace MarketSignal

/-- Model of the JS builtin String.prototype.toUpperCase (ASCII-faithful). -/
def jsToUpperCase (s : String) : String :=
  ⟨s.data.map Char.toUpper⟩

/-- Model of the JS builtin String.prototype.trim: strip whitespace from both ends. -/
def jsTrim (s : String) : String :=
  ⟨((s.data.dropWhile Char.isWhitespace).reverse.dropWhile Char.isWhitespace).reverse⟩

/-- Replace the first occurrence of `pat` in a character list by `rep`. -/
def replaceFirstList (pat rep : List Char) : List Char → List Char
  | [] => if pat = [] then rep else []
  | c :: rest =>
    if (c :: rest).take pat.length = pat then rep ++ ((c :: rest).drop pat.length)
    else c :: replaceFirstList pat rep rest

/-- Model of the JS builtin String.prototype.replace with a string pattern:
only the first occurrence is replaced. -/
def jsReplaceFirst (s pat rep : String) : String :=
  ⟨replaceFirstList pat.data rep.data s.data⟩

/-! ### The key/value cache, src/lib/cache.ts -/

/-- JSON.stringify / JSON.parse for values of type `α`, as used by the cache.
These are platform builtins, kept abstract; `parse` returns `none` when
JSON.parse throws. -/
structure JsonCodec (α : Type) where
  stringify : α → String
  parse : String → Option α

/-- The AsyncStorage backing store: an association of keys to raw strings. -/
abbrev Storage := List (String × String)

/-- AsyncStorage.getItem: the raw string stored under `key`, or none. -/
def Storage.getItem (s : Storage) (key : String) : Option String :=
  (s.find? (fun p => p.1 = key)).map (fun p => p.2)

/-- AsyncStorage.setItem: overwrite the entry under `key`. -/
def Storage.setItem (s : Storage) (key v : String) : Storage :=
  (key, v) :: s.filter (fun p => p.1 ≠ key)

/-- AsyncStorage.removeItem. -/
def Storage.removeItem (s : Storage) (key : String) : Storage :=
  s.filter (fun p => p.1 ≠ key)

namespace Cache

/-- cache.set: JSON-stringify the value and store it; a storage failure is
caught and logged, leaving the store unchanged. -/
def set {α : Type} (codec : JsonCodec α) (fault : Bool) (s : Storage)
    (key : String) (value : α) : Storage :=
  if fault then s else Storage.setItem s key (codec.stringify value)

/-- cache.get: read the raw string and JSON-parse it; a storage failure or a
parse failure is caught and yields null, and so does an absent (or, by JS
truthiness, empty) raw string. -/
def get {α : Type} (codec : JsonCodec α) (fault : Bool) (s : Storage)
    (key : String) : Option α :=
  if fault then none
  else
    match Storage.getItem s key with
    | none => none
    | some raw => if raw = "" then none else codec.parse raw

/-- cache.remove: delete the entry; a storage failure is caught, leaving the
store unchanged. -/
def remove (fault : Bool) (s : Storage) (key : String) : Storage :=
  if fault then s else Storage.removeItem s key

/-- cache.clear: empty the store; a storage failure is caught, leaving the
store unchanged. -/
def clear (fault : Bool) (s : Storage) : Storage :=
  if fault then s else []

end Cache

/-! ### Data model, src/types/index.ts -/

/-- The Alert row, with the fields declared on the Alert interface.
condition_value is a JS number, modelled as a rational. -/
structure Alert where
  id : String
  user_id : String
  symbol : String
  condition_type : String
  condition_value : ℚ
  is_active : Bool
  created_at : String
  updated_at : String
deriving DecidableEq, Repr

/-- The union of values declared for Alert.condition_type in
src/types/index.ts. -/
def alertConditionTypeValues : List String :=
  ["rsi_above", "rsi_below", "price_above", "price_below"]

/-- The Profile row of src/types/index.ts. -/
structure Profile where
  id : String
  email : String
  full_name : Option String
  is_admin : Bool
  email_notifications : Bool
  telegram_notifications : Bool
  telegram_chat_id : Option String
  push_token : Option String
  created_at : String
deriving DecidableEq, Repr

/-- The AuditTrailEntry row of src/types/index.ts. -/
structure AuditTrailEntry where
  id : String
  alert_id : String
  symbol : String
  triggered_at : String
  condition_type : String
  condition_value : ℚ
  current_value : ℚ
  previous_rsi : Option ℚ
  current_rsi : Option ℚ
  notification_sent : Bool
  notification_method : Option String
deriving DecidableEq, Repr

/-! ### The alerts screen -/

/-- Outcome of a backend request, as observed by the client: the data on
success, or an error. -/
inductive QueryResult (α : Type) where
  | ok (data : α)
  | err
deriving DecidableEq, Repr

/-- A native alert dialog raised via Alert.alert(title, message). -/
structure Dialog where
  title : String
  message : String
deriving DecidableEq, Repr

/-- State touched by the alerts screen: the in-memory alerts list of the
store, the cached list under the key alerts (none when absent), and the
loading/refreshing flags. -/
structure ScreenState where
  alerts : List Alert
  cacheAlerts : Option (List Alert)
  loading : Bool
  refreshing : Bool
deriving DecidableEq, Repr

/-- The read query built by fetchAlerts: from the alerts table, the signed-in
user's rows, ordered by created_at descending, no limit. -/
structure QueryConfig where
  table : String
  orderBy : String
  ascending : Bool
  limitN : Option Nat
deriving DecidableEq, Repr

/-- Query built at src/lib/cache.ts lines 155-159. -/
def alertsQuery : QueryConfig :=
  { table := "alerts", orderBy := "created_at", ascending := false, limitN := none }

/-- fetchAlerts(isRefresh): unless refreshing, hydrate the displayed list from
the cached alerts when that value is non-null and non-empty; then take the
backend response: on success replace the displayed list by the returned rows
and write them back to the cache, on error raise the generic dialog.  The
finally block clears both flags. -/
def fetchAlerts (isRefresh : Bool) (remote : QueryResult (List Alert))
    (st : ScreenState) : ScreenState × List Dialog :=
  let st1 :=
    if !isRefresh then
      match st.cacheAlerts with
      | some cached => if cached.length > 0 then { st with alerts := cached } else st
      | none => st
    else st
  match remote with
  | .ok data =>
    ({ st1 with alerts := data, cacheAlerts := some data,
                loading := false, refreshing := false }, [])
  | .err =>
    ({ st1 with loading := false, refreshing := false },
     [⟨"Error", "Failed to load alerts"⟩])

/-- The optimistic list update inside toggleAlertStatus: negate is_active on
the entries whose id equals the toggled alert's id. -/
def toggleOptimistic (alerts : List Alert) (alert : Alert) : List Alert :=
  alerts.map (fun a => if a.id = alert.id then { a with is_active := !a.is_active } else a)

/-- toggleAlertStatus: apply the optimistic update to state and cache, then
issue the backend update; on error restore state and cache to the pre-update
list and raise the generic dialog. -/
def toggleAlertStatus (alert : Alert) (remote : QueryResult Unit)
    (st : ScreenState) : ScreenState × List Dialog :=
  let updatedAlerts := toggleOptimistic st.alerts alert
  let st1 := { st with alerts := updatedAlerts, cacheAlerts := some updatedAlerts }
  match remote with
  | .ok _ => (st1, [])
  | .err =>
    ({ st1 with alerts := st.alerts, cacheAlerts := some st.alerts },
     [⟨"Error", "Failed to update alert status"⟩])

/-- The confirmed (Delete button) branch of deleteAlert: optimistically drop
the alert from state and cache, then issue the backend delete; on error
restore state and cache to the pre-delete list and raise the generic dialog;
on success refetch with isRefresh true. -/
def deleteAlertConfirmed (alert : Alert) (remoteDelete : QueryResult Unit)
    (remoteRefetch : QueryResult (List Alert)) (st : ScreenState) :
    ScreenState × List Dialog :=
  let updatedAlerts := st.alerts.filter (fun a => a.id ≠ alert.id)
  let st1 := { st with alerts := updatedAlerts, cacheAlerts := some updatedAlerts }
  match remoteDelete with
  | .err =>
    ({ st1 with alerts := st.alerts, cacheAlerts := some st.alerts },
     [⟨"Error", "Failed to delete alert"⟩])
  | .ok _ => fetchAlerts true remoteRefetch st1

/-- The realtime channel configuration built by setupRealtimeSubscription. -/
structure SubscriptionConfig where
  channel : String
  event : String
  schema : String
  table : String
  filter : String
deriving DecidableEq, Repr

/-- setupRealtimeSubscription: channel alerts-changes on postgres_changes with
event wildcard, schema public, table alerts, filtered to the user's id. -/
def setupRealtimeSubscription (userId : String) : SubscriptionConfig :=
  { channel := "alerts-changes", event := "*", schema := "public",
    table := "alerts", filter := "user_id=eq." ++ userId }

/-- A change event on the realtime feed. -/
inductive ChangeEvent where
  | insert
  | update
  | delete
deriving DecidableEq, Repr

/-- The event name used by the realtime transport's event filter. -/
def ChangeEvent.feedName : ChangeEvent → String
  | .insert => "INSERT"
  | .update => "UPDATE"
  | .delete => "DELETE"

/-- External realtime semantics: a subscription delivers an event when its
event filter is the wildcard or names that event. -/
def SubscriptionConfig.matchesEvent (cfg : SubscriptionConfig) (e : ChangeEvent) : Bool :=
  cfg.event = "*" || cfg.event = e.feedName

/-- The callback registered on the subscription: it ignores the payload and
calls fetchAlerts() with the default isRefresh = false. -/
def realtimeCallback (_e : ChangeEvent) (remote : QueryResult (List Alert))
    (st : ScreenState) : ScreenState × List Dialog :=
  fetchAlerts false remote st

/-- The mount effect of the alerts screen: when a user is signed in it sets up
the realtime subscription (and fetches); with no user it does neither. -/
def alertsScreenMount (user : Option String) : Option SubscriptionConfig :=
  match user with
  | some uid => some (setupRealtimeSubscription uid)
  | none => none

/-! ### The admin audit-trail screen, src/unnamed/part_002 -/

/-- profile?.is_admin with JS optional chaining: false when there is no
profile. -/
def profileIsAdmin : Option Profile → Bool
  | none => false
  | some p => p.is_admin

/-- The query built by fetchAuditTrail: audit_trail, ordered by triggered_at
descending, limited to 100 rows. -/
def auditTrailQuery : QueryConfig :=
  { table := "audit_trail", orderBy := "triggered_at", ascending := false,
    limitN := some 100 }

/-- The mount effect of the admin screen: fetch the audit trail only when the
current profile has is_admin true. -/
def adminEffect (profile : Option Profile) : Option QueryConfig :=
  if profileIsAdmin profile then some auditTrailQuery else none

/-- What the admin screen renders. -/
inductive AdminView where
  | accessDenied
  | loadingView
  | auditList (entries : List AuditTrailEntry)
deriving DecidableEq, Repr

/-- The render branch of the admin screen: non-admins (or no profile) get the
Access Denied view, then the loading view, then the audit list. -/
def adminRender (profile : Option Profile) (loading : Bool)
    (auditData : List AuditTrailEntry) : AdminView :=
  if !profileIsAdmin profile then .accessDenied
  else if loading then .loadingView
  else .auditList auditData

/-- Model of the external backend executing `auditTrailQuery` over the rows of
the audit_trail table: order by triggered_at descending, then apply the
limit of 100. -/
def runAuditQuery (rows : List AuditTrailEntry) : List AuditTrailEntry :=
  (rows.mergeSort (fun a b => b.triggered_at ≤ a.triggered_at)).take 100

/-! ### The create-alert modal, src/components/alerts/CreateAlertModal.tsx -/

/-- The form state held by CreateAlertModal. -/
structure FormState where
  assetType : String
  symbol : String
  alertType : String
  signalType : String
  operator : String
  conditionValue : String
  timeframe : String
  notificationEmail : Bool
  notificationTelegram : Bool
deriving DecidableEq, Repr

/-- The useState initial values of the form. -/
def initialFormState : FormState :=
  { assetType := "crypto", symbol := "", alertType := "threshold",
    signalType := "price", operator := "above", conditionValue := "",
    timeframe := "15m", notificationEmail := true, notificationTelegram := false }

/-- getOperators: the operator choices offered for the current alert type. -/
def getOperators (alertType : String) : List String :=
  if alertType = "cross" then ["cross_above", "cross_below"] else ["above", "below"]

/-- A user interaction with the form.  Each constructor is one of the
modal's input handlers. -/
inductive FormEvent where
  | pressAssetType (a : String)
  | typeSymbol (text : String)
  | pressThreshold
  | pressCross
  | pressSignalType (s : String)
  | pressOperator (op : String)
  | typeConditionValue (text : String)
  | pressTimeframe (t : String)
  | toggleEmail
  | toggleTelegram
  | closeModal
deriving DecidableEq, Repr

/-- resetForm: clear symbol and value and restore the defaults (the asset
type is not reset by the source). -/
def resetForm (st : FormState) : FormState :=
  { st with
    symbol := "", conditionValue := "", alertType := "threshold",
    signalType := "price", operator := "above", timeframe := "15m",
    notificationEmail := true, notificationTelegram := false }

/-- One step of the form: the onPress/onChangeText handlers.  Segmented
controls only offer their rendered values; the operator buttons only offer
getOperators of the current alert type; choosing an alert behavior also sets
its first operator; the symbol field upper-cases its text on change. -/
def formStep (st : FormState) (e : FormEvent) : FormState :=
  match e with
  | .pressAssetType a =>
    if a ∈ ["crypto", "stock", "forex"] then { st with assetType := a } else st
  | .typeSymbol text => { st with symbol := jsToUpperCase text }
  | .pressThreshold => { st with alertType := "threshold", operator := "above" }
  | .pressCross => { st with alertType := "cross", operator := "cross_above" }
  | .pressSignalType s =>
    if s ∈ ["price", "rsi"] then { st with signalType := s } else st
  | .pressOperator op =>
    if op ∈ getOperators st.alertType then { st with operator := op } else st
  | .typeConditionValue text => { st with conditionValue := text }
  | .pressTimeframe t =>
    if t ∈ ["1m", "15m", "1h", "1d"] then { st with timeframe := t } else st
  | .toggleEmail => { st with notificationEmail := !st.notificationEmail }
  | .toggleTelegram => { st with notificationTelegram := !st.notificationTelegram }
  | .closeModal => resetForm st

/-- The form state reached from the initial state by a list of interactions. -/
def runForm (events : List FormEvent) : FormState :=
  events.foldl formStep initialFormState

/-- getConditionType: signalType_cross_direction for cross alerts (stripping
the cross_ tag from the operator), signalType_operator otherwise. -/
def getConditionType (st : FormState) : String :=
  if st.alertType = "cross" then
    st.signalType ++ "_cross_" ++ jsReplaceFirst st.operator "cross_" ""
  else
    st.signalType ++ "_" ++ st.operator

/-- The eight condition_type values the create flow can submit, as listed in
the title and display maps of the source. -/
def conditionTypeValues : List String :=
  ["price_above", "price_below", "price_cross_above", "price_cross_below",
   "rsi_above", "rsi_below", "rsi_cross_above", "rsi_cross_below"]

/-- validateForm, with `parsed` the outcome of the JS builtin
parseFloat(conditionValue) (none models NaN).  Returns the message of the
error dialog it raises, or none when validation passes. -/
def validateForm (st : FormState) (parsed : Option ℚ) : Option String :=
  if jsTrim st.symbol = "" then some "Please enter a symbol"
  else if jsTrim st.conditionValue = "" then some "Please enter a threshold value"
  else
    match parsed with
    | none => some "Please enter a valid number"
    | some value =>
      if st.signalType = "rsi" then
        if value < 0 ∨ value > 100 then some "RSI must be between 0 and 100" else none
      else
        if value ≤ 0 then some "Price must be greater than 0" else none

/-- generateTitle: readable title from the uppercased, trimmed symbol and the
condition type, with a generic fallback. -/
def generateTitle (st : FormState) : String :=
  let symbolName := jsTrim (jsToUpperCase st.symbol)
  let conditionType := getConditionType st
  let value := st.conditionValue
  if conditionType = "price_above" then symbolName ++ " price above $" ++ value
  else if conditionType = "price_below" then symbolName ++ " price below $" ++ value
  else if conditionType = "price_cross_above" then
    symbolName ++ " price crosses above $" ++ value
  else if conditionType = "price_cross_below" then
    symbolName ++ " price crosses below $" ++ value
  else if conditionType = "rsi_above" then symbolName ++ " RSI above " ++ value
  else if conditionType = "rsi_below" then symbolName ++ " RSI below " ++ value
  else if conditionType = "rsi_cross_above" then
    symbolName ++ " RSI crosses above " ++ value
  else if conditionType = "rsi_cross_below" then
    symbolName ++ " RSI crosses below " ++ value
  else symbolName ++ " Alert"

/-- The record handleSubmit inserts into the alerts table (metadata is the
timeframe object). -/
structure AlertInsert where
  user_id : Option String
  title : String
  asset_type : String
  symbol : String
  condition_type : String
  condition_value : ℚ
  notification_email : Bool
  notification_telegram : Bool
  is_active : Bool
  timeframe : String
deriving DecidableEq, Repr

/-- Everything observable about one run of handleSubmit: the record sent to
the backend (none when no insert is attempted), the dialogs raised, the form
state afterwards, the final loading flag, and whether the onSuccess and
onClose callbacks ran. -/
structure SubmitResult where
  insert : Option AlertInsert
  dialogs : List Dialog
  form : FormState
  loadingAfter : Bool
  succeeded : Bool
  closed : Bool
deriving DecidableEq, Repr

/-- handleSubmit: return early (before touching loading) when validateForm
raises its dialog; otherwise insert the built record and, on success, show the
success dialog, reset the form and run the onSuccess and onClose callbacks;
on a backend error show the error dialog.  The finally block clears loading.
The second parsed match arm is unreachable because validateForm rejects a NaN
parse outcome. -/
def handleSubmit (user : Option String) (st : FormState) (parsed : Option ℚ)
    (remote : QueryResult Unit) (loading0 : Bool) : SubmitResult :=
  match validateForm st parsed with
  | some msg =>
    { insert := none, dialogs := [⟨"Error", msg⟩], form := st,
      loadingAfter := loading0, succeeded := false, closed := false }
  | none =>
    match parsed with
    | none =>
      { insert := none, dialogs := [], form := st, loadingAfter := false,
        succeeded := false, closed := false }
    | some value =>
      let record : AlertInsert :=
        { user_id := user, title := generateTitle st, asset_type := st.assetType,
          symbol := jsTrim (jsToUpperCase st.symbol),
          condition_type := getConditionType st, condition_value := value,
          notification_email := st.notificationEmail,
          notification_telegram := st.notificationTelegram, is_active := true,
          timeframe := st.timeframe }
      match remote with
      | .ok _ =>
        { insert := some record,
          dialogs := [⟨"Success", "Alert created successfully!"⟩],
          form := resetForm st, loadingAfter := false, succeeded := true,
          closed := true }
      | .err =>
        { insert := some record, dialogs := [⟨"Error", "Failed to create alert"⟩],
          form := st, loadingAfter := false, succeeded := false, closed := false }

/-! ### Concrete sample data used by counterexamples and witnesses -/

/-- A concrete alert row. -/
def sampleAlert : Alert :=
  { id := "a1", user_id := "u1", symbol := "BTC", condition_type := "price_above",
    condition_value := 50000, is_active := true, created_at := "2024-01-01",
    updated_at := "2024-01-01" }

/-- A concrete codec for natural numbers, used to instantiate the abstract
JSON codec on concrete inputs. -/
def demoCodec : JsonCodec Nat :=
  { stringify := fun _ => "5", parse := fun raw => if raw = "5" then some 5 else none }

/-- A concrete backing store holding a raw string the demo codec rejects. -/
def demoStorage : Storage := [("alerts", "bad")]

/-- The interactions of a user creating a price cross-above alert. -/
def crossFlowEvents : List FormEvent :=
  [.pressCross, .typeSymbol "btc", .typeConditionValue "50000"]

/-- Invariant on form states reachable from the initial state: the signal type
is one of the two offered, and the operator belongs to the group offered for
the current alert behavior. -/
def FormInvariant (st : FormState) : Prop :=
  (st.signalType = "price" ∨ st.signalType = "rsi") ∧
  (st.alertType = "cross" → st.operator = "cross_above" ∨ st.operator = "cross_below") ∧
  (st.alertType ≠ "cross" → st.operator = "above" ∨ st.operator = "below")

/-! ### Theorems -/

/-- Claim C1: for every alerts list held in the store, when the backend
request issued by toggleAlertStatus or by the confirmed branch of deleteAlert
returns an error, the in-memory alerts state and the alerts cache entry are
both restored to exactly the list held before the optimistic change, and a
generic error dialog is shown. -/
theorem rollback_on_error (st : ScreenState) (al : Alert)
    (remoteRefetch : QueryResult (List Alert)) :
    (toggleAlertStatus al .err st).1.alerts = st.alerts ∧
    (toggleAlertStatus al .err st).1.cacheAlerts = some st.alerts ∧
    (toggleAlertStatus al .err st).2 = [⟨"Error", "Failed to update alert status"⟩] ∧
    (deleteAlertConfirmed al .err remoteRefetch st).1.alerts = st.alerts ∧
    (deleteAlertConfirmed al .err remoteRefetch st).1.cacheAlerts = some st.alerts ∧
    (deleteAlertConfirmed al .err remoteRefetch st).2 =
      [⟨"Error", "Failed to delete alert"⟩] :=
  ⟨rfl, rfl, rfl, rfl, rfl, rfl⟩

/-- Claim C2: the optimistic update of toggleAlertStatus keeps length and
order, negates is_active exactly on the entries whose id equals the toggled
alert's id, and leaves every other field of every entry unchanged. -/
theorem toggle_optimistic_frame (alerts : List Alert) (al : Alert) :
    (toggleOptimistic alerts al).length = alerts.length ∧
    ∀ (i : Nat) (a : Alert), alerts[i]? = some a →
      ∃ b : Alert, (toggleOptimistic alerts al)[i]? = some b ∧
        b.id = a.id ∧ b.user_id = a.user_id ∧ b.symbol = a.symbol ∧
        b.condition_type = a.condition_type ∧
        b.condition_value = a.condition_value ∧
        b.created_at = a.created_at ∧ b.updated_at = a.updated_at ∧
        b.is_active = (if a.id = al.id then !a.is_active else a.is_active) := by
  constructor
  · simp [toggleOptimistic]
  · intro i a h
    refine ⟨if a.id = al.id then { a with is_active := !a.is_active } else a,
      ?_, ?_, ?_, ?_, ?_, ?_, ?_, ?_, ?_⟩
    · simp [toggleOptimistic, List.getElem?_map, h]
    all_goals by_cases hid : a.id = al.id <;> simp [hid]

/-- Witness for C2 at a concrete singleton list. -/
theorem toggle_optimistic_frame_witness :
    ([sampleAlert][0]? = some sampleAlert) ∧
    (∃ b, (toggleOptimistic [sampleAlert] sampleAlert)[0]? = some b ∧
      b.id = sampleAlert.id ∧ b.user_id = sampleAlert.user_id ∧
      b.symbol = sampleAlert.symbol ∧
      b.condition_type = sampleAlert.condition_type ∧
      b.condition_value = sampleAlert.condition_value ∧
      b.created_at = sampleAlert.created_at ∧
      b.updated_at = sampleAlert.updated_at ∧
      b.is_active =
        (if sampleAlert.id = sampleAlert.id then !sampleAlert.is_active
         else sampleAlert.is_active)) :=
  ⟨rfl, (toggle_optimistic_frame [sampleAlert] sampleAlert).2 0 sampleAlert rfl⟩

/-- Claim C3: fetchAlerts with isRefresh false hydrates the displayed list
from the cached alerts only when that value is non-null and non-empty, then on
a successful query replaces the displayed list by exactly the returned rows
regardless of prior state and writes them back to the cache; with isRefresh
true the cache read is skipped; the query orders by created_at descending. -/
theorem fetch_alerts_cache_then_network (st : ScreenState) (data : List Alert) :
    fetchAlerts false (.ok data) st =
      ({ alerts := data, cacheAlerts := some data, loading := false,
         refreshing := false }, []) ∧
    fetchAlerts true (.ok data) st =
      ({ alerts := data, cacheAlerts := some data, loading := false,
         refreshing := false }, []) ∧
    (fetchAlerts false .err st).1.alerts =
      (match st.cacheAlerts with
       | some cached => if cached.length > 0 then cached else st.alerts
       | none => st.alerts) ∧
    (fetchAlerts true .err st).1.alerts = st.alerts ∧
    alertsQuery.table = "alerts" ∧ alertsQuery.orderBy = "created_at" ∧
    alertsQuery.ascending = false := by
  refine ⟨rfl, rfl, ?_, rfl, rfl, rfl, rfl⟩
  cases hc : st.cacheAlerts <;> simp [fetchAlerts, hc]
  split <;> rfl

/-- Counterexample to C4 as stated: a run of fetchAlerts whose backend query
errors does change the alerts state, because the cache-read step executed
before the query already replaced it with the cached non-empty list. -/
theorem fetch_alerts_error_changes_state :
    (fetchAlerts false .err
      { alerts := [], cacheAlerts := some [sampleAlert], loading := true,
        refreshing := false }).1.alerts ≠ [] := by
  decide

/-- Claim C4 (amended): on a backend error fetchAlerts shows the generic
dialog once, leaves the cache entry unchanged, clears both flags, and leaves
the alerts state unchanged except that when isRefresh is false the cache-read
step may already have replaced it with the cached non-empty list. -/
theorem fetch_alerts_error_behavior (st : ScreenState) (isRefresh : Bool) :
    (fetchAlerts isRefresh .err st).2 = [⟨"Error", "Failed to load alerts"⟩] ∧
    (fetchAlerts isRefresh .err st).1.cacheAlerts = st.cacheAlerts ∧
    (fetchAlerts isRefresh .err st).1.loading = false ∧
    (fetchAlerts isRefresh .err st).1.refreshing = false ∧
    (fetchAlerts isRefresh .err st).1.alerts =
      (if isRefresh then st.alerts
       else
         match st.cacheAlerts with
         | some cached => if cached.length > 0 then cached else st.alerts
         | none => st.alerts) := by
  cases isRefresh <;> cases hc : st.cacheAlerts <;>
    simp [fetchAlerts, hc] <;> split <;> simp_all

/-- Claim C7: for a signed-in user, mounting the alerts screen subscribes to
the realtime feed of the alerts table filtered to that user's id with the
wildcard event, every insert, update or delete event is matched, and the
registered callback refetches the alerts list from the backend. -/
theorem realtime_subscription_refetches (uid : String) (e : ChangeEvent)
    (st : ScreenState) (remote : QueryResult (List Alert)) :
    alertsScreenMount (some uid) = some (setupRealtimeSubscription uid) ∧
    alertsScreenMount none = none ∧
    (setupRealtimeSubscription uid).table = "alerts" ∧
    (setupRealtimeSubscription uid).schema = "public" ∧
    (setupRealtimeSubscription uid).filter = "user_id=eq." ++ uid ∧
    (setupRealtimeSubscription uid).matchesEvent e = true ∧
    realtimeCallback e remote st = fetchAlerts false remote st := by
  refine ⟨rfl, rfl, rfl, rfl, rfl, ?_, rfl⟩
  simp [SubscriptionConfig.matchesEvent, setupRealtimeSubscription]

/-- Claim C5: the admin screen queries audit_trail only when the profile has
is_admin true; that query orders by triggered_at descending and returns at
most 100 entries; for a non-admin (or missing) profile no audit fetch happens
and the Access Denied view is rendered. -/
theorem admin_audit_gating (p : Option Profile) (loading : Bool)
    (auditData rows : List AuditTrailEntry) :
    (profileIsAdmin p = false →
      adminEffect p = none ∧ adminRender p loading auditData = .accessDenied) ∧
    (profileIsAdmin p = true → adminEffect p = some auditTrailQuery) ∧
    auditTrailQuery.table = "audit_trail" ∧
    auditTrailQuery.orderBy = "triggered_at" ∧
    auditTrailQuery.ascending = false ∧
    auditTrailQuery.limitN = some 100 ∧
    (runAuditQuery rows).length ≤ 100 ∧
    (runAuditQuery rows).Pairwise (fun a b => b.triggered_at ≤ a.triggered_at) := by
  refine ⟨?_, ?_, rfl, rfl, rfl, rfl, ?_, ?_⟩
  · intro h
    exact ⟨by simp [adminEffect, h], by simp [adminRender, h]⟩
  · intro h
    simp [adminEffect, h]
  · simp [runAuditQuery]
  · have hs := @List.sorted_mergeSort AuditTrailEntry
      (fun a b : AuditTrailEntry => decide (b.triggered_at ≤ a.triggered_at))
      (fun a b c hab hbc => by
        simp only [decide_eq_true_eq] at *
        exact le_trans hbc hab)
      (fun a b => by
        simpa [Bool.or_eq_true, decide_eq_true_eq] using
          le_total b.triggered_at a.triggered_at)
      rows
    have ht : List.Sublist (runAuditQuery rows)
        (rows.mergeSort
          (fun a b : AuditTrailEntry => decide (b.triggered_at ≤ a.triggered_at))) := by
      simpa [runAuditQuery] using List.take_sublist 100
        (rows.mergeSort
          (fun a b : AuditTrailEntry => decide (b.triggered_at ≤ a.triggered_at)))
    exact (List.Pairwise.sublist ht hs).imp (fun h => by simpa using h)

/-- Witness for C5 at the missing profile. -/
theorem admin_audit_gating_witness :
    profileIsAdmin none = false ∧ adminEffect none = none ∧
    adminRender none true [] = AdminView.accessDenied :=
  ⟨rfl, ((admin_audit_gating none true [] []).1 rfl).1,
    ((admin_audit_gating none true [] []).1 rfl).2⟩

/-- Claim C8: for every key and storable value, cache.get after cache.set of
that key (fault-free, value serializing to a non-empty string as JSON always
does) returns the JSON round-trip of the stored value, and cache.get of a key
the store never held returns null. -/
theorem cache_set_get_roundtrip {α : Type} (codec : JsonCodec α) (s : Storage)
    (k : String) (v : α) (hnz : codec.stringify v ≠ "") :
    Cache.get codec false (Cache.set codec false s k v) k =
      codec.parse (codec.stringify v) ∧
    ∀ (s2 : Storage) (k2 : String),
      Storage.getItem s2 k2 = none → Cache.get codec false s2 k2 = none := by
  constructor
  · simp [Cache.get, Cache.set, Storage.getItem, Storage.setItem, hnz]
  · intro s2 k2 h
    simp [Cache.get, h]

/-- Witness for C8 at a concrete codec, key and value. -/
theorem cache_set_get_roundtrip_witness :
    demoCodec.stringify 5 ≠ "" ∧
    (Cache.get demoCodec false (Cache.set demoCodec false [] "alerts" 5) "alerts" =
       demoCodec.parse (demoCodec.stringify 5) ∧
     ∀ (s2 : Storage) (k2 : String),
       Storage.getItem s2 k2 = none → Cache.get demoCodec false s2 k2 = none) :=
  ⟨by decide, cache_set_get_roundtrip demoCodec [] "alerts" 5 (by decide)⟩

/-- Claim C9: no cache operation propagates an exception: under a failing
storage primitive, set, remove and clear leave the store unchanged and get
returns null, and a failing JSON parse also makes get return null. -/
theorem cache_faults_are_noops {α : Type} (codec : JsonCodec α) (s : Storage)
    (k : String) (v : α) :
    Cache.set codec true s k v = s ∧
    Cache.get codec true s k = none ∧
    Cache.remove true s k = s ∧
    Cache.clear true s = s ∧
    (∀ raw : String, Storage.getItem s k = some raw → codec.parse raw = none →
      Cache.get codec false s k = none) := by
  refine ⟨rfl, rfl, rfl, rfl, ?_⟩
  intro raw hraw hparse
  by_cases hr : raw = "" <;> simp [Cache.get, hraw, hr, hparse]

/-- Witness for C9 at a concrete store whose raw entry the codec rejects. -/
theorem cache_faults_are_noops_witness :
    Storage.getItem demoStorage "alerts" = some "bad" ∧
    demoCodec.parse "bad" = none ∧
    Cache.get demoCodec false demoStorage "alerts" = none :=
  ⟨rfl, by decide,
    (cache_faults_are_noops demoCodec demoStorage "alerts" 0).2.2.2.2 "bad" rfl
      (by decide)⟩

/-- The initial form state satisfies the reachability invariant. -/
theorem initialFormState_invariant : FormInvariant initialFormState := by
  refine ⟨Or.inl rfl, ?_, fun _ => Or.inl rfl⟩
  intro h
  simp [initialFormState] at h

/-- Every form interaction preserves the reachability invariant. -/
theorem formStep_invariant (st : FormState) (e : FormEvent)
    (h : FormInvariant st) : FormInvariant (formStep st e) := by
  rcases h with ⟨h1, h2, h3⟩
  cases e with
  | pressAssetType a =>
    refine ⟨?_, ?_, ?_⟩ <;> simp [formStep] <;> split <;> simp_all
  | typeSymbol text => exact ⟨h1, h2, h3⟩
  | pressThreshold =>
    refine ⟨h1, ?_, fun _ => Or.inl rfl⟩
    intro hcontra
    simp [formStep] at hcontra
  | pressCross => exact ⟨h1, fun _ => Or.inl rfl, fun hne => absurd rfl hne⟩
  | pressSignalType s =>
    refine ⟨?_, ?_, ?_⟩ <;> simp [formStep] <;> split <;> simp_all
  | pressOperator op =>
    by_cases hA : st.alertType = "cross" <;>
      refine ⟨?_, ?_, ?_⟩ <;> simp [formStep, getOperators, hA] <;>
      split <;> simp_all
  | typeConditionValue text => exact ⟨h1, h2, h3⟩
  | pressTimeframe t =>
    refine ⟨?_, ?_, ?_⟩ <;> simp [formStep] <;> split <;> simp_all
  | toggleEmail => exact ⟨h1, h2, h3⟩
  | toggleTelegram => exact ⟨h1, h2, h3⟩
  | closeModal =>
    refine ⟨Or.inl rfl, ?_, fun _ => Or.inl rfl⟩
    intro hcontra
    simp [formStep, resetForm] at hcontra

/-- Every reachable form state satisfies the invariant. -/
theorem runForm_invariant (events : List FormEvent) :
    FormInvariant (runForm events) := by
  have key : ∀ (l : List FormEvent) (st : FormState), FormInvariant st →
      FormInvariant (l.foldl formStep st) := by
    intro l
    induction l with
    | nil => exact fun st h => h
    | cons e l ih => exact fun st h => ih _ (formStep_invariant st e h)
  exact key events initialFormState initialFormState_invariant

/-- On every reachable form state, the submitted condition_type is one of the
eight signalType/direction combinations of the source's display maps. -/
theorem conditionType_in_values (st : FormState) (h : FormInvariant st) :
    getConditionType st ∈ conditionTypeValues := by
  rcases h with ⟨h1, h2, h3⟩
  by_cases hA : st.alertType = "cross"
  · rcases h2 hA with hop | hop <;> rcases h1 with hsig | hsig <;>
      simp [getConditionType, hA, hop, hsig] <;> decide
  · rcases h3 hA with hop | hop <;> rcases h1 with hsig | hsig <;>
      simp [getConditionType, hA, hop, hsig] <;> decide

/-- Claim C6, evaluated at the cross-alert flow: creating a price cross-above
alert submits a record with condition_type price_cross_above, uppercased
trimmed symbol and is_active true — a value among the eight the flow can
produce but absent from the condition_type union declared on the Alert
interface in src/types/index.ts. -/
theorem cross_condition_type_not_declared :
    (handleSubmit (some "u1") (runForm crossFlowEvents) (some 50000) (.ok ())
        true).insert =
      some { user_id := some "u1", title := "BTC price crosses above $50000",
             asset_type := "crypto", symbol := "BTC",
             condition_type := "price_cross_above", condition_value := 50000,
             notification_email := true, notification_telegram := false,
             is_active := true, timeframe := "15m" } ∧
    "price_cross_above" ∈ conditionTypeValues ∧
    "price_cross_above" ∉ alertConditionTypeValues := by
  refine ⟨by decide, by decide, by decide⟩

/-- Claim C10: submit is a no-op (no insert, state untouched, an error dialog
raised) whenever validation fails, and validation fails exactly when the
symbol is blank after trimming, the threshold field is blank after trimming
or unparseable, the signal is RSI with a value outside 0..100, or the signal
is price with a value at most 0. -/
theorem validation_gates_submit (st : FormState) (parsed : Option ℚ)
    (user : Option String) (remote : QueryResult Unit) (loading0 : Bool)
    (hsig : st.signalType = "price" ∨ st.signalType = "rsi") :
    ((validateForm st parsed).isSome ↔
      (jsTrim st.symbol = "" ∨ jsTrim st.conditionValue = "" ∨ parsed = none ∨
       (st.signalType = "rsi" ∧ ∃ v : ℚ, parsed = some v ∧ (v < 0 ∨ 100 < v)) ∨
       (st.signalType = "price" ∧ ∃ v : ℚ, parsed = some v ∧ v ≤ 0))) ∧
    ∀ msg : String, validateForm st parsed = some msg →
      handleSubmit user st parsed remote loading0 =
        { insert := none, dialogs := [⟨"Error", msg⟩], form := st,
          loadingAfter := loading0, succeeded := false, closed := false } := by
  constructor
  · by_cases h1 : jsTrim st.symbol = ""
    · simp [validateForm, h1]
    · by_cases h2 : jsTrim st.conditionValue = ""
      · simp [validateForm, h1, h2]
      · cases parsed with
        | none => simp [validateForm, h1, h2]
        | some v =>
          rcases hsig with h | h
          · by_cases h3 : v ≤ 0 <;> simp [validateForm, h1, h2, h, h3]
          · by_cases h3 : v < 0 ∨ 100 < v <;>
              simp [validateForm, h1, h2, h, h3]
  · intro msg hmsg
    simp [handleSubmit, hmsg]

/-- Witness for C10 at the initial (blank) form state. -/
theorem validation_gates_submit_witness :
    (initialFormState.signalType = "price" ∨ initialFormState.signalType = "rsi") ∧
    (((validateForm initialFormState none).isSome ↔
      (jsTrim initialFormState.symbol = "" ∨
       jsTrim initialFormState.conditionValue = "" ∨ (none : Option ℚ) = none ∨
       (initialFormState.signalType = "rsi" ∧
         ∃ v : ℚ, (none : Option ℚ) = some v ∧ (v < 0 ∨ 100 < v)) ∨
       (initialFormState.signalType = "price" ∧
         ∃ v : ℚ, (none : Option ℚ) = some v ∧ v ≤ 0))) ∧
     ∀ msg : String, validateForm initialFormState none = some msg →
       handleSubmit none initialFormState none .err false =
         { insert := none, dialogs := [⟨"Error", msg⟩], form := initialFormState,
           loadingAfter := false, succeeded := false, closed := false }) :=
  ⟨Or.inl rfl,
    validation_gates_submit initialFormState none none .err false (Or.inl rfl)⟩

end MarketSignal
